import Mathlib

/-!
Verification of the legacy-dashboard-alert migration core
(`pkg/services/ngalert/migration/alert_rule.go`).

The Go source operates on JSON documents (`map[string]json.RawMessage`),
strings and int64 values.  The embedding below models JSON values as an
inductive type, Go maps as association lists with unique keys (lookup,
erase and insert mirror the Go map operations), Go `int64` as `Int`
(no operation in the source can overflow), and Go strings as Lean
strings (length counts characters).

External collaborators of the file (constants and helpers defined in
other Grafana packages) are modelled from the specification; each such
definition carries a doc comment starting with `Modelled from the spec:`.
-/

/-! # Definitions -/

/-- A JSON value.  `obj` keeps its fields as an association list; the Go
source stores objects as `map[string]json.RawMessage`, and all maps that
occur here have pairwise distinct keys. -/
inductive JSONValue where
  | null
  | bool (b : Bool)
  | num (n : Int)
  | str (s : String)
  | arr (elems : List JSONValue)
  | obj (fields : List (String × JSONValue))
  deriving Repr

/-- A JSON object body / Go map, as an association list. -/
abbrev JSONObj := List (String × JSONValue)

/-- Go map read `m[k]`: the value stored at key `k`, if any. -/
def lookupKey {α : Type} : List (String × α) → String → Option α
  | [], _ => none
  | (k2, v) :: rest, k => if k2 = k then some v else lookupKey rest k

/-- Go `delete(m, k)`: remove the binding of `k`. -/
def eraseKey {α : Type} : List (String × α) → String → List (String × α)
  | [], _ => []
  | (k2, v) :: rest, k => if k2 = k then eraseKey rest k else (k2, v) :: eraseKey rest k

/-- Go map write `m[k] = v`: replace the binding of `k`, or append it. -/
def insertKey {α : Type} : List (String × α) → String → α → List (String × α)
  | [], k, v => [(k, v)]
  | (k2, v2) :: rest, k, v =>
    if k2 = k then (k, v) :: rest else (k2, v2) :: insertKey rest k v

/-! ## State translation (`transNoData`, `transExecErr`)

The option constants compared against come from
`pkg/services/alerting/models`, outside the analysed file; their string
values are fixed by the specification tables. -/

/-- Modelled from the spec: legacy no-data option `"ok"`
(`legacymodels.NoDataSetOK`). -/
def NoDataSetOK : String := "ok"

/-- Modelled from the spec: legacy no-data option `"no_data"`
(`legacymodels.NoDataSetNoData`). -/
def NoDataSetNoData : String := "no_data"

/-- Modelled from the spec: legacy no-data option `"alerting"`
(`legacymodels.NoDataSetAlerting`). -/
def NoDataSetAlerting : String := "alerting"

/-- Modelled from the spec: legacy no-data option `"keep_state"`
(`legacymodels.NoDataKeepState`). -/
def NoDataKeepState : String := "keep_state"

/-- Modelled from the spec: legacy execution-error option `"alerting"`
(`legacymodels.ExecutionErrorSetAlerting`). -/
def ExecutionErrorSetAlerting : String := "alerting"

/-- Modelled from the spec: legacy execution-error option `"keep_state"`
(`legacymodels.ExecutionErrorKeepState`). -/
def ExecutionErrorKeepState : String := "keep_state"

/-- Modelled from the spec: legacy execution-error option `"ok"`
(`legacymodels.ExecutionErrorSetOk`). -/
def ExecutionErrorSetOk : String := "ok"

/-- The no-data state enumeration of the unified engine
(`ngmodels.NoDataState`). -/
inductive NoDataState where
  | OK
  | NoData
  | Alerting
  deriving DecidableEq, Repr

/-- The execution-error state enumeration of the unified engine
(`ngmodels.ExecutionErrorState`). -/
inductive ExecutionErrorState where
  | AlertingErrState
  | ErrorErrState
  | OkErrState
  deriving DecidableEq, Repr

/-- `transNoData` from the source: a switch over the legacy no-data
option (the logger argument only emits a warning in the default branch
and has no semantic effect, so it is dropped). -/
def transNoData (s : String) : NoDataState :=
  if s = NoDataSetOK then NoDataState.OK
  else if s = "" ∨ s = NoDataSetNoData then NoDataState.NoData
  else if s = NoDataSetAlerting then NoDataState.Alerting
  else if s = NoDataKeepState then NoDataState.NoData
  else NoDataState.NoData

/-- `transExecErr` from the source: a switch over the legacy
execution-error option (logger dropped as above). -/
def transExecErr (s : String) : ExecutionErrorState :=
  if s = "" ∨ s = ExecutionErrorSetAlerting then ExecutionErrorState.AlertingErrState
  else if s = ExecutionErrorKeepState then ExecutionErrorState.ErrorErrState
  else if s = ExecutionErrorSetOk then ExecutionErrorState.OkErrState
  else ExecutionErrorState.ErrorErrState

/-! ## Interval adjustment (`ruleAdjustInterval`) -/

/-- `ruleAdjustInterval` from the source.  Go `%` truncates toward zero;
in the branch where it is used the operand is greater than 10, hence
positive, where truncated and Euclidean remainder coincide, so the
embedding uses the Lean `%` on `Int`. -/
def ruleAdjustInterval (freq : Int) : Int :=
  let baseFreq : Int := 10
  if freq ≤ baseFreq then 10
  else freq - freq % baseFreq

/-! ## Query repair (`migrateAlertRuleQueries` and helpers) -/

/-- Modelled from the spec: the reserved datasource sentinel that marks
expression nodes (`expressionDatasourceUID`, defined elsewhere in the
migration package). -/
def expressionDatasourceUID : String := "__expr__"

/-- Modelled from the spec: Prometheus datasource type constant
(`datasources.DS_PROMETHEUS`). -/
def DS_PROMETHEUS : String := "prometheus"

/-- Modelled from the spec: the raw Graphite target field
(`graphite.TargetModelField`). -/
def TargetModelField : String := "target"

/-- Modelled from the spec: the fully-expanded Graphite target field
(`graphite.TargetFullModelField`). -/
def TargetFullModelField : String := "targetFull"

/-- Go `json.Unmarshal(raw, &b)` for a `bool` target whose current value
is `cur`: a JSON boolean decodes to itself, JSON null leaves the target
unchanged and reports no error (documented `encoding/json` behaviour),
and every other JSON value is a decode error (`none`). -/
def unmarshalBoolInto (cur : Bool) : JSONValue → Option Bool
  | JSONValue.bool b => some b
  | JSONValue.null => some cur
  | _ => none

/-- Go `json.Unmarshal(ds, &struct puts Type string end)` projected to the
`type` field: an object yields its `type` field when that field is a
string (absent or null yields the zero value `""`; any other shape is a
decode error), JSON null yields the zero value, and any non-object is a
decode error. -/
def unmarshalDatasourceType : JSONValue → Except String String
  | JSONValue.null => Except.ok ""
  | JSONValue.obj f =>
    match lookupKey f "type" with
    | none => Except.ok ""
    | some (JSONValue.str s) => Except.ok s
    | some JSONValue.null => Except.ok ""
    | some _ => Except.error "parse datasource: cannot unmarshal type field"
  | _ => Except.error "parse datasource: cannot unmarshal into struct"

/-- `isPrometheusQuery` from the source: reads the `datasource` field of
the query model, decodes its `type` sub-field, errors when the field is
missing, undecodable or empty, and otherwise reports whether the type is
the Prometheus type. -/
def isPrometheusQuery (queryData : JSONObj) : Except String Bool :=
  match lookupKey queryData "datasource" with
  | none => Except.error "missing datasource field"
  | some ds =>
    match unmarshalDatasourceType ds with
    | Except.error e => Except.error e
    | Except.ok t =>
      if t = "" then Except.error "missing type field"
      else Except.ok (t == DS_PROMETHEUS)

/-- `fixGraphiteReferencedSubQueries` from the source: when the model
carries the fully-expanded target field, delete it and store its value
under the raw target field. -/
def fixGraphiteReferencedSubQueries (queryData : JSONObj) : JSONObj :=
  match lookupKey queryData TargetFullModelField with
  | some fullQuery =>
    insertKey (eraseKey queryData TargetFullModelField) TargetModelField fullQuery
  | none => queryData

/-- The flag-reading step of `fixPrometheusBothTypeQuery`: the source
declares `var instant bool` (zero value false, kept when the key is
absent) and unmarshals the raw field into it; `none` is the decode
error, on which the source returns the model unchanged. -/
def parseFlag (queryData : JSONObj) (k : String) : Option Bool :=
  match lookupKey queryData k with
  | none => some false
  | some v => unmarshalBoolInto false v

/-- `fixPrometheusBothTypeQuery` from the source: parse the `instant`
and `range` flags (absent means false; an undecodable flag aborts the
fix, returning the model unchanged), and when both are true and the
query is identified as Prometheus, force `instant` to false.  All
logging is dropped. -/
def fixPrometheusBothTypeQuery (queryData : JSONObj) : JSONObj :=
  match parseFlag queryData "instant" with
  | none => queryData
  | some instant =>
    match parseFlag queryData "range" with
    | none => queryData
    | some rng =>
      if !instant || !rng then queryData
      else
        match isPrometheusQuery queryData with
        | Except.error _ => queryData
        | Except.ok false => queryData
        | Except.ok true => insertKey queryData "instant" (JSONValue.bool false)

/-- One query of the translated condition (`ngmodels.AlertQuery`
restricted to the fields the migration reads or writes; the remaining
fields are passed through untouched). -/
structure AlertQuery where
  refId : String
  datasourceUID : String
  model : JSONValue
  deriving Repr

/-- Go `json.Unmarshal(model, &m)` for a `map[string]json.RawMessage`
target: an object decodes to its fields, JSON null decodes to the nil
map without error (documented `encoding/json` behaviour, represented as
`none`), and every other JSON value is a decode error. -/
def unmarshalMap : JSONValue → Except String (Option JSONObj)
  | JSONValue.obj f => Except.ok (some f)
  | JSONValue.null => Except.ok none
  | _ => Except.error "json: cannot unmarshal value into map"

/-- Go `json.Marshal` of a possibly-nil `map[string]json.RawMessage`:
the nil map serialises to JSON null.  Go sorts object keys when
marshalling; key order is irrelevant to the JSON-object equivalence used
below, so the embedding keeps the list order. -/
def marshalMap : Option JSONObj → JSONValue
  | none => JSONValue.null
  | some f => JSONValue.obj f

/-- The per-query body of the loop in `migrateAlertRuleQueries`:
expression nodes pass through untouched; otherwise the model is decoded
as a map (the nil map produced from JSON null passes through each fix
unchanged, so it is threaded with `Option.map`), the `hide` key is
removed, the Graphite and Prometheus fixes are applied, and the model is
re-marshalled. -/
def migrateQuery (d : AlertQuery) : Except String AlertQuery :=
  if d.datasourceUID = expressionDatasourceUID then Except.ok d
  else
    match unmarshalMap d.model with
    | Except.error e => Except.error e
    | Except.ok mopt =>
      let fixedData := mopt.map (fun fd =>
        fixPrometheusBothTypeQuery (fixGraphiteReferencedSubQueries (eraseKey fd "hide")))
      Except.ok { d with model := marshalMap fixedData }

/-- `migrateAlertRuleQueries` from the source: the loop over the query
sequence, stopping at the first per-query error (logger dropped). -/
def migrateAlertRuleQueries : List AlertQuery → Except String (List AlertQuery)
  | [] => Except.ok []
  | d :: rest =>
    match migrateQuery d with
    | Except.error e => Except.error e
    | Except.ok d2 =>
      match migrateAlertRuleQueries rest with
      | Except.error e => Except.error e
      | Except.ok rest2 => Except.ok (d2 :: rest2)

/-! ## Group naming (`groupName`, `truncate`) -/

/-- Modelled from the spec: the host system maximum rule-group-name
length (`store.AlertRuleMaxRuleGroupNameLength`, outside src/). -/
def AlertRuleMaxRuleGroupNameLength : Nat := 190

/-- Modelled from the spec: the unit table of the humanized duration
rendering (`model.Duration.String()` from prometheus/common, external to
this repository): milliseconds per unit, larger units first; years and
weeks are printed only when they divide the remainder exactly. -/
def durUnits : List (String × Int × Bool) :=
  [("y", 1000 * 60 * 60 * 24 * 365, true),
   ("w", 1000 * 60 * 60 * 24 * 7, true),
   ("d", 1000 * 60 * 60 * 24, false),
   ("h", 1000 * 60 * 60, false),
   ("m", 1000 * 60, false),
   ("s", 1000, false),
   ("ms", 1, false)]

/-- Modelled from the spec: one step of the humanized rendering — print
the unit count when positive and subtract it from the remainder. -/
def durStep : Int × String → String × Int × Bool → Int × String
  | (ms, r), (unit, mult, exactFlag) =>
    if exactFlag && (ms % mult != 0) then (ms, r)
    else if 0 < ms / mult then (ms - (ms / mult) * mult, r ++ toString (ms / mult) ++ unit)
    else (ms, r)

/-- Modelled from the spec: render an interval in seconds as a
human-readable duration such as `"10s"` or `"2m"` (the external
`model.Duration.String()`); a zero duration renders as `"0s"`. -/
def durationString (seconds : Int) : String :=
  let ms := seconds * 1000
  if ms = 0 then "0s"
  else (durUnits.foldl durStep (ms, "")).2

/-- `truncate` from the source: keep at most `length` characters.  The
bound is an Go `int`; it is non-negative at every call site (a negative
bound would make the Go slice expression panic). -/
def truncate (daName : String) (length : Int) : String :=
  if (daName.length : Int) > length then String.mk (daName.data.take length.toNat)
  else daName

/-- `groupName` from the source: humanize the interval, build the suffix
`" - <duration>"`, truncate only the dashboard title so that the
concatenation fits the maximum rule-group-name length. -/
def groupName (interval : Int) (dashboardTitle : String) : String :=
  let panelSuffix := " - " ++ durationString interval
  let truncatedDashboard :=
    truncate dashboardTitle ((AlertRuleMaxRuleGroupNameLength : Int) - panelSuffix.length)
  truncatedDashboard ++ panelSuffix

/-! ## Rule assembly (`addLabelsAndAnnotations`, `migrateAlert`) -/

/-- A notification channel (`legacymodels.AlertNotification` restricted
to the name, the only field the analysed file reads). -/
structure Channel where
  name : String
  deriving Repr

/-- Modelled from the spec: the fixed routing label marking migrated
rules (`ngmodels.MigratedUseLegacyChannelsLabel`). -/
def MigratedUseLegacyChannelsLabel : String := "__use_legacy_channels__"

/-- Modelled from the spec: the channel-name-derived routing label name
(`contactLabel`, defined elsewhere in the migration package). -/
def contactLabel (name : String) : String := "__contacts_" ++ name ++ "__"

/-- Modelled from the spec: the dashboard-id annotation key
(`ngmodels.DashboardUIDAnnotation`). -/
def annDashboardUID : String := "__dashboardUid__"

/-- Modelled from the spec: the panel-id annotation key
(`ngmodels.PanelIDAnnotation`). -/
def annPanelID : String := "__panelId__"

/-- Modelled from the spec: the legacy-alert-id annotation key
(`ngmodels.MigratedAlertIdAnnotation`). -/
def annAlertID : String := "__alertId__"

/-- Modelled from the spec: the rendered-message annotation key
(`ngmodels.MigratedMessageAnnotation`). -/
def annMessage : String := "message"

/-- The legacy alert fields read by `migrateAlert`
(`legacymodels.Alert`; the opaque settings document is carried as a JSON
value, and the `For` duration as its second count). -/
structure LegacyAlert where
  id : Int
  orgID : Int
  panelID : Int
  name : String
  message : String
  state : String
  frequency : Int
  forDuration : Int
  settings : JSONValue

/-- The dashboard upgrade context (`migmodels.DashboardUpgradeInfo`). -/
structure DashboardUpgradeInfo where
  dashboardUID : String
  dashboardName : String
  newFolderUID : String

/-- Modelled from the spec: the two state-option fields of the parsed
settings document (`dashAlertSettings`, defined elsewhere in the
migration package; the condition and notification lists it also carries
are consumed by the external condition translator and channel
resolver). -/
structure DashAlertSettings where
  noDataState : String
  executionErrorState : String

/-- Go `json.Unmarshal` of a string-typed struct field: absent or null
gives the zero value, a JSON string gives its value, anything else is a
decode error. -/
def getStringField (f : JSONObj) (k : String) : Except String String :=
  match lookupKey f k with
  | none => Except.ok ""
  | some (JSONValue.str s) => Except.ok s
  | some JSONValue.null => Except.ok ""
  | some _ => Except.error "cannot unmarshal settings field"

/-- Modelled from the spec: decoding of the opaque settings document
into `dashAlertSettings`: JSON null gives the zero struct, an object
decodes each field, anything else is a parse error. -/
def unmarshalDashAlertSettings : JSONValue → Except String DashAlertSettings
  | JSONValue.null => Except.ok ⟨"", ""⟩
  | JSONValue.obj f =>
    match getStringField f "noDataState" with
    | Except.error e => Except.error e
    | Except.ok nd =>
      match getStringField f "executionErrorState" with
      | Except.error e => Except.error e
      | Except.ok ee => Except.ok ⟨nd, ee⟩
  | _ => Except.error "parse settings: cannot unmarshal into struct"

/-- `addLabelsAndAnnotations` from the source: labels are the legacy
tags, the fixed legacy-channel routing marker and one marker per
resolved channel; the annotation map holds exactly the four fixed keys.
The tag extraction (`alert.GetTagsFromSettings`) and the template pass
(`MigrateTmpl`) are external collaborators, passed in as the tag list
and the rendering function. -/
def addLabelsAndAnnotations (alert : LegacyAlert) (dashboardUID : String)
    (channels : List Channel) (tags : List (String × String))
    (migrateTmpl : String → String) :
    List (String × String) × List (String × String) :=
  let lbls := tags.foldl (fun m t => insertKey m t.1 t.2) []
  let lbls := insertKey lbls MigratedUseLegacyChannelsLabel "true"
  let lbls := channels.foldl (fun m c => insertKey m (contactLabel c.name) "true") lbls
  let anns : List (String × String) := []
  let anns := insertKey anns annDashboardUID dashboardUID
  let anns := insertKey anns annPanelID (toString alert.panelID)
  let anns := insertKey anns annAlertID (toString alert.id)
  let message := migrateTmpl alert.message
  let anns := insertKey anns annMessage message
  (lbls, anns)

/-- The translated condition produced by the external condition
translator: a condition reference plus the ordered query sequence. -/
structure Condition where
  condition : String
  data : List AlertQuery

/-- The results of the external collaborators consumed by
`migrateAlert`, supplied as inputs: the condition translator
(`transConditions`), the resolved channels (`om.extractChannels` over
the channel cache), the extracted tags, the template renderer
(`MigrateTmpl`), the per-folder title deduplicator, and the UID
generator (`util.GenerateShortUID`). -/
structure MigrateDeps where
  transConditions : Except String Condition
  channels : List Channel
  tags : List (String × String)
  migrateTmpl : String → String
  deduplicate : String → Except String String
  generateUID : String

/-- The kind tag of a silence-creation request. -/
inductive SilenceKind where
  | error
  | noData
  deriving DecidableEq, Repr

/-- Modelled from the spec: a silence-creation request emitted by
`om.addErrorSilence` / `om.addNoDataSilence` (outside src/), carrying
its kind tag and the rule identifier its matcher is scoped to. -/
structure SilenceRequest where
  kind : SilenceKind
  ruleUID : String
  deriving DecidableEq, Repr

/-- Modelled from the spec: the silencing-match label derived from the
rule identifier (`getLabelForSilenceMatching`, outside src/). -/
def getLabelForSilenceMatching (ruleUID : String) : String × String :=
  ("__alert_rule_uid__", ruleUID)

/-- The migrated rule record (`ngmodels.AlertRule` restricted to the
fields assigned by `migrateAlert`; the capture-time `Updated` timestamp
is omitted). -/
structure AlertRule where
  orgID : Int
  title : String
  uid : String
  condition : String
  data : List AlertQuery
  intervalSeconds : Int
  version : Int
  namespaceUID : String
  dashboardUID : String
  panelID : Int
  ruleGroup : String
  forDuration : Int
  annotations : List (String × String)
  labels : List (String × String)
  ruleGroupIndex : Int
  isPaused : Bool
  noDataState : NoDataState
  execErrState : ExecutionErrorState

/-- `migrateAlert` from the source: parse the settings, translate the
condition (external, fail hard), build labels and annotations, repair
the queries (fail hard), compute the paused flag, deduplicate the title
(external, fail hard), assemble the rule with group index 1, add the
silencing label, and emit one silence request per keep-state option.
The silence persistence calls (`om.addErrorSilence` /
`om.addNoDataSilence`, outside src/) are modelled from the spec as
emitting requests; the source logs and ignores their failures, so the
requests are returned as a list. -/
def migrateAlert (deps : MigrateDeps) (alert : LegacyAlert)
    (info : DashboardUpgradeInfo) :
    Except String (AlertRule × List SilenceRequest) :=
  match unmarshalDashAlertSettings alert.settings with
  | Except.error e => Except.error ("parse settings: " ++ e)
  | Except.ok parsedSettings =>
    match deps.transConditions with
    | Except.error e => Except.error ("transform conditions: " ++ e)
    | Except.ok cond =>
      let la := addLabelsAndAnnotations alert info.dashboardUID deps.channels
        deps.tags deps.migrateTmpl
      match migrateAlertRuleQueries cond.data with
      | Except.error e => Except.error ("queries: " ++ e)
      | Except.ok data =>
        let isPaused := alert.state == "paused"
        match deps.deduplicate alert.name with
        | Except.error e => Except.error e
        | Except.ok name =>
          let ar : AlertRule := {
            orgID := alert.orgID,
            title := name,
            uid := deps.generateUID,
            condition := cond.condition,
            data := data,
            intervalSeconds := ruleAdjustInterval alert.frequency,
            version := 1,
            namespaceUID := info.newFolderUID,
            dashboardUID := info.dashboardUID,
            panelID := alert.panelID,
            ruleGroup := groupName (ruleAdjustInterval alert.frequency) info.dashboardName,
            forDuration := alert.forDuration,
            annotations := la.2,
            labels := la.1,
            ruleGroupIndex := 1,
            isPaused := isPaused,
            noDataState := transNoData parsedSettings.noDataState,
            execErrState := transExecErr parsedSettings.executionErrorState }
          let lv := getLabelForSilenceMatching ar.uid
          let ar2 := { ar with labels := insertKey ar.labels lv.1 lv.2 }
          let silences :=
            (if parsedSettings.executionErrorState = ExecutionErrorKeepState
              then [SilenceRequest.mk SilenceKind.error ar2.uid] else []) ++
            (if parsedSettings.noDataState = NoDataKeepState
              then [SilenceRequest.mk SilenceKind.noData ar2.uid] else [])
          Except.ok (ar2, silences)

/-! # Theorems -/

/-! ## Association-list map lemmas -/

theorem lookupKey_insertKey_self {α : Type} (m : List (String × α)) (k : String) (v : α) :
    lookupKey (insertKey m k v) k = some v := by
  induction m with
  | nil => simp [insertKey, lookupKey]
  | cons hd tl ih =>
    obtain ⟨k2, v2⟩ := hd
    by_cases h : k2 = k <;> simp [insertKey, lookupKey, h, ih]

theorem lookupKey_insertKey_ne {α : Type} (m : List (String × α)) (k k2 : String) (v : α)
    (hne : k ≠ k2) : lookupKey (insertKey m k v) k2 = lookupKey m k2 := by
  induction m with
  | nil => simp [insertKey, lookupKey, hne]
  | cons hd tl ih =>
    obtain ⟨k3, v3⟩ := hd
    by_cases h : k3 = k
    · subst h
      simp [insertKey, lookupKey, hne]
    · simp [insertKey, lookupKey, h, ih]

theorem lookupKey_eraseKey_self {α : Type} (m : List (String × α)) (k : String) :
    lookupKey (eraseKey m k) k = none := by
  induction m with
  | nil => simp [eraseKey, lookupKey]
  | cons hd tl ih =>
    obtain ⟨k2, v2⟩ := hd
    by_cases h : k2 = k <;> simp [eraseKey, lookupKey, h, ih]

theorem lookupKey_eraseKey_ne {α : Type} (m : List (String × α)) (k k2 : String)
    (hne : k ≠ k2) : lookupKey (eraseKey m k) k2 = lookupKey m k2 := by
  induction m with
  | nil => simp [eraseKey, lookupKey]
  | cons hd tl ih =>
    obtain ⟨k3, v3⟩ := hd
    by_cases h : k3 = k
    · subst h
      simp [eraseKey, lookupKey, hne, ih]
    · simp [eraseKey, lookupKey, h, ih]

theorem eraseKey_of_lookup_none {α : Type} (m : List (String × α)) (k : String)
    (h : lookupKey m k = none) : eraseKey m k = m := by
  induction m with
  | nil => simp [eraseKey]
  | cons hd tl ih =>
    obtain ⟨k2, v2⟩ := hd
    by_cases hk : k2 = k
    · simp [lookupKey, hk] at h
    · simp [lookupKey, hk] at h
      simp [eraseKey, hk, ih h]

/-! ## Query-repair lemmas -/

theorem isPrometheusQuery_of_type (m dsf : JSONObj) (s : String)
    (hd : lookupKey m "datasource" = some (JSONValue.obj dsf))
    (ht : lookupKey dsf "type" = some (JSONValue.str s)) (hs : s ≠ "") :
    isPrometheusQuery m = Except.ok (s == DS_PROMETHEUS) := by
  simp [isPrometheusQuery, unmarshalDatasourceType, hd, ht, hs]

theorem parseFlag_eq_some_true_iff (m : JSONObj) (k : String) :
    parseFlag m k = some true ↔ lookupKey m k = some (JSONValue.bool true) := by
  unfold parseFlag
  cases h : lookupKey m k with
  | none => simp
  | some v => cases v <;> simp [unmarshalBoolInto]

theorem fixPrometheusBothTypeQuery_pos (m : JSONObj)
    (hi : lookupKey m "instant" = some (JSONValue.bool true))
    (hr : lookupKey m "range" = some (JSONValue.bool true))
    (hp : isPrometheusQuery m = Except.ok true) :
    fixPrometheusBothTypeQuery m = insertKey m "instant" (JSONValue.bool false) := by
  have h1 : parseFlag m "instant" = some true := (parseFlag_eq_some_true_iff m "instant").2 hi
  have h2 : parseFlag m "range" = some true := (parseFlag_eq_some_true_iff m "range").2 hr
  simp [fixPrometheusBothTypeQuery, h1, h2, hp]

theorem fixPrometheusBothTypeQuery_neg (m : JSONObj)
    (h : ¬(lookupKey m "instant" = some (JSONValue.bool true) ∧
           lookupKey m "range" = some (JSONValue.bool true) ∧
           isPrometheusQuery m = Except.ok true)) :
    fixPrometheusBothTypeQuery m = m := by
  unfold fixPrometheusBothTypeQuery
  cases hi : parseFlag m "instant" with
  | none => rfl
  | some instant =>
    cases hr : parseFlag m "range" with
    | none => rfl
    | some rng =>
      cases instant with
      | false => rfl
      | true =>
        cases rng with
        | false => rfl
        | true =>
          cases hp : isPrometheusQuery m with
          | error e => rfl
          | ok b2 =>
            cases b2 with
            | false => rfl
            | true =>
              exact absurd ⟨(parseFlag_eq_some_true_iff m "instant").1 hi,
                (parseFlag_eq_some_true_iff m "range").1 hr, hp⟩ h

/-! ## Interval lemmas -/

theorem ruleAdjustInterval_le (freq : Int) (h : freq ≤ 10) :
    ruleAdjustInterval freq = 10 := by
  simp [ruleAdjustInterval, h]

theorem ruleAdjustInterval_gt (freq : Int) (h : 10 < freq) :
    ruleAdjustInterval freq = 10 * (freq / 10) := by
  have hmod := Int.ediv_add_emod freq 10
  simp only [ruleAdjustInterval]
  rw [if_neg (by omega)]
  omega

/-! ## Claims C1, C5, C10 -/

/-- Claim C1: the state translation functions are total and realise
exactly the specified tables: `transNoData` maps `"ok"` to `OK`, `""`
and `"no_data"` to `NoData`, `"alerting"` to `Alerting`, `"keep_state"`
to `NoData`, and any other string to `NoData`; `transExecErr` maps `""`
and `"alerting"` to `AlertingErrState`, `"keep_state"` to
`ErrorErrState`, `"ok"` to `OkErrState`, and any other string to
`ErrorErrState`. -/
theorem claim_C1_state_translation_tables :
    transNoData "ok" = NoDataState.OK ∧
    transNoData "" = NoDataState.NoData ∧
    transNoData "no_data" = NoDataState.NoData ∧
    transNoData "alerting" = NoDataState.Alerting ∧
    transNoData "keep_state" = NoDataState.NoData ∧
    (∀ s : String, s ≠ "ok" → s ≠ "" → s ≠ "no_data" → s ≠ "alerting" →
      s ≠ "keep_state" → transNoData s = NoDataState.NoData) ∧
    transExecErr "" = ExecutionErrorState.AlertingErrState ∧
    transExecErr "alerting" = ExecutionErrorState.AlertingErrState ∧
    transExecErr "keep_state" = ExecutionErrorState.ErrorErrState ∧
    transExecErr "ok" = ExecutionErrorState.OkErrState ∧
    (∀ s : String, s ≠ "" → s ≠ "alerting" → s ≠ "keep_state" → s ≠ "ok" →
      transExecErr s = ExecutionErrorState.ErrorErrState) := by
  refine ⟨rfl, rfl, rfl, rfl, rfl, ?_, rfl, rfl, rfl, rfl, ?_⟩
  · intro s h1 h2 h3 h4 h5
    simp [transNoData, NoDataSetOK, NoDataSetNoData, NoDataSetAlerting,
      NoDataKeepState, h1, h2, h3, h4, h5]
  · intro s h1 h2 h3 h4
    simp [transExecErr, ExecutionErrorSetAlerting, ExecutionErrorKeepState,
      ExecutionErrorSetOk, h1, h2, h3, h4]

/-- Witness for C1 at the concrete unknown option `"bogus"`. -/
theorem claim_C1_witness :
    transNoData "bogus" = NoDataState.NoData ∧
    transExecErr "bogus" = ExecutionErrorState.ErrorErrState := by
  have h := claim_C1_state_translation_tables
  exact ⟨h.2.2.2.2.2.1 "bogus" (by decide) (by decide) (by decide) (by decide)
      (by decide),
    h.2.2.2.2.2.2.2.2.2.2 "bogus" (by decide) (by decide) (by decide) (by decide)⟩

/-- Counterexample to claim C5 as stated: the claim lists 10 as the value
at input 23, but `ruleAdjustInterval 23` is 20 (23 rounded down to the
nearest multiple of 10). -/
theorem claim_C5_counterexample :
    ruleAdjustInterval 23 = 20 ∧ ruleAdjustInterval 23 ≠ 10 := by
  constructor <;> decide

/-- Claim C5 (amended): `ruleAdjustInterval` rounds a frequency down to
the nearest multiple of the 10-second base, with any frequency at or
below the base collapsing to the base; in particular, for inputs 5, 10,
15, 23 and 100 it returns 10, 10, 10, 20 and 100 respectively (the
original claim listed 10 at input 23, but rounding 23 down to a multiple
of 10 gives 20). -/
theorem claim_C5_adjust_interval :
    (∀ f : Int, f ≤ 10 → ruleAdjustInterval f = 10) ∧
    (∀ f : Int, 10 < f → ruleAdjustInterval f = 10 * (f / 10)) ∧
    ruleAdjustInterval 5 = 10 ∧
    ruleAdjustInterval 10 = 10 ∧
    ruleAdjustInterval 15 = 10 ∧
    ruleAdjustInterval 23 = 20 ∧
    ruleAdjustInterval 100 = 100 := by
  exact ⟨ruleAdjustInterval_le, ruleAdjustInterval_gt,
    by decide, by decide, by decide, by decide, by decide⟩

/-- Witness for C5 at the concrete inputs 7 and 42. -/
theorem claim_C5_witness :
    ruleAdjustInterval 7 = 10 ∧ ruleAdjustInterval 42 = 10 * (42 / 10) := by
  exact ⟨claim_C5_adjust_interval.1 7 (by decide),
    claim_C5_adjust_interval.2.1 42 (by decide)⟩

/-- Claim C10: for every integer frequency, including zero and negative
values, `ruleAdjustInterval` returns a value that is at least 10 and an
exact multiple of 10, so every migrated rule interval is a positive
multiple of the scheduler base granularity. -/
theorem claim_C10_interval_positive_multiple (freq : Int) :
    10 ≤ ruleAdjustInterval freq ∧ (10 : Int) ∣ ruleAdjustInterval freq := by
  by_cases h : freq ≤ 10
  · rw [ruleAdjustInterval_le freq h]
    exact ⟨le_refl _, ⟨1, by norm_num⟩⟩
  · push_neg at h
    rw [ruleAdjustInterval_gt freq h]
    have h2 : 1 ≤ freq / 10 := by
      rw [Int.le_ediv_iff_mul_le (by norm_num)]
      omega
    exact ⟨by nlinarith, ⟨freq / 10, rfl⟩⟩

/-! ## Claims C3, C4 -/

/-- Claim C3: for every query model whose `instant` field parses to true
and whose `range` field parses to true, if the nested datasource type
equals the Prometheus type the repair rewrites `instant` to false and
leaves `range` true; with datasource type `"graphite"`, with the
datasource field absent, or whenever the datasource type is unparsable
or empty (an `isPrometheusQuery` error), both flags are left unchanged
(the whole model is returned untouched). -/
theorem claim_C3_prometheus_both_fix (m dsf : JSONObj)
    (hi : lookupKey m "instant" = some (JSONValue.bool true))
    (hr : lookupKey m "range" = some (JSONValue.bool true)) :
    (lookupKey m "datasource" = some (JSONValue.obj dsf) →
      lookupKey dsf "type" = some (JSONValue.str DS_PROMETHEUS) →
      lookupKey (fixPrometheusBothTypeQuery m) "instant" = some (JSONValue.bool false) ∧
      lookupKey (fixPrometheusBothTypeQuery m) "range" = some (JSONValue.bool true)) ∧
    (lookupKey m "datasource" = some (JSONValue.obj dsf) →
      lookupKey dsf "type" = some (JSONValue.str "graphite") →
      fixPrometheusBothTypeQuery m = m) ∧
    (lookupKey m "datasource" = none → fixPrometheusBothTypeQuery m = m) ∧
    (∀ e, isPrometheusQuery m = Except.error e → fixPrometheusBothTypeQuery m = m) := by
  refine ⟨?_, ?_, ?_, ?_⟩
  · intro hd htype
    have hp : isPrometheusQuery m = Except.ok true := by
      have := isPrometheusQuery_of_type m dsf DS_PROMETHEUS hd htype (by decide)
      simpa using this
    rw [fixPrometheusBothTypeQuery_pos m hi hr hp]
    constructor
    · exact lookupKey_insertKey_self m "instant" (JSONValue.bool false)
    · rw [lookupKey_insertKey_ne m "instant" "range" (JSONValue.bool false) (by decide)]
      exact hr
  · intro hd htype
    have hp : isPrometheusQuery m = Except.ok false := by
      have := isPrometheusQuery_of_type m dsf "graphite" hd htype (by decide)
      simpa using this
    refine fixPrometheusBothTypeQuery_neg m ?_
    intro hc
    rw [hp] at hc
    simp at hc
  · intro hd
    have hp : isPrometheusQuery m = Except.error "missing datasource field" := by
      simp [isPrometheusQuery, hd]
    refine fixPrometheusBothTypeQuery_neg m ?_
    intro hc
    rw [hp] at hc
    simp at hc
  · intro e hp
    refine fixPrometheusBothTypeQuery_neg m ?_
    intro hc
    rw [hp] at hc
    simp at hc

/-- Witness for C3: a concrete Prometheus Both-type query is switched to
a range query, and the same model with a graphite datasource is left
untouched. -/
theorem claim_C3_witness :
    lookupKey (fixPrometheusBothTypeQuery
      [("expr", JSONValue.str "up"), ("instant", JSONValue.bool true),
       ("range", JSONValue.bool true),
       ("datasource", JSONValue.obj [("type", JSONValue.str "prometheus")])])
      "instant" = some (JSONValue.bool false) ∧
    lookupKey (fixPrometheusBothTypeQuery
      [("expr", JSONValue.str "up"), ("instant", JSONValue.bool true),
       ("range", JSONValue.bool true),
       ("datasource", JSONValue.obj [("type", JSONValue.str "prometheus")])])
      "range" = some (JSONValue.bool true) ∧
    fixPrometheusBothTypeQuery
      [("expr", JSONValue.str "up"), ("instant", JSONValue.bool true),
       ("range", JSONValue.bool true),
       ("datasource", JSONValue.obj [("type", JSONValue.str "graphite")])] =
      [("expr", JSONValue.str "up"), ("instant", JSONValue.bool true),
       ("range", JSONValue.bool true),
       ("datasource", JSONValue.obj [("type", JSONValue.str "graphite")])] := by
  have h1 := claim_C3_prometheus_both_fix
    [("expr", JSONValue.str "up"), ("instant", JSONValue.bool true),
     ("range", JSONValue.bool true),
     ("datasource", JSONValue.obj [("type", JSONValue.str "prometheus")])]
    [("type", JSONValue.str "prometheus")] rfl rfl
  have h2 := claim_C3_prometheus_both_fix
    [("expr", JSONValue.str "up"), ("instant", JSONValue.bool true),
     ("range", JSONValue.bool true),
     ("datasource", JSONValue.obj [("type", JSONValue.str "graphite")])]
    [("type", JSONValue.str "graphite")] rfl rfl
  exact ⟨(h1.1 rfl rfl).1, (h1.1 rfl rfl).2, h2.2.1 rfl rfl⟩

/-- Claim C4: for every query model that contains both the raw Graphite
target field and its fully-expanded counterpart, the repair replaces the
raw field value with the expanded value and removes the expanded field;
all other keys are unchanged. -/
theorem claim_C4_graphite_target_promotion (m : JSONObj) (t v : JSONValue)
    (ht : lookupKey m TargetModelField = some t)
    (hf : lookupKey m TargetFullModelField = some v) :
    lookupKey (fixGraphiteReferencedSubQueries m) TargetModelField = some v ∧
    lookupKey (fixGraphiteReferencedSubQueries m) TargetFullModelField = none ∧
    ∀ k, k ≠ TargetModelField → k ≠ TargetFullModelField →
      lookupKey (fixGraphiteReferencedSubQueries m) k = lookupKey m k := by
  unfold fixGraphiteReferencedSubQueries
  rw [hf]
  refine ⟨?_, ?_, ?_⟩
  · exact lookupKey_insertKey_self (eraseKey m TargetFullModelField) TargetModelField v
  · rw [lookupKey_insertKey_ne (eraseKey m TargetFullModelField)
      TargetModelField TargetFullModelField v (by decide)]
    exact lookupKey_eraseKey_self m TargetFullModelField
  · intro k h1 h2
    rw [lookupKey_insertKey_ne (eraseKey m TargetFullModelField)
      TargetModelField k v (Ne.symm h1)]
    exact lookupKey_eraseKey_ne m TargetFullModelField k (Ne.symm h2)

/-- Witness for C4 at a concrete model carrying both target fields and
one unrelated key. -/
theorem claim_C4_witness :
    lookupKey (fixGraphiteReferencedSubQueries
      [("target", JSONValue.str "#A"), ("targetFull", JSONValue.str "sum(series)"),
       ("refCount", JSONValue.num 2)]) TargetModelField =
      some (JSONValue.str "sum(series)") ∧
    lookupKey (fixGraphiteReferencedSubQueries
      [("target", JSONValue.str "#A"), ("targetFull", JSONValue.str "sum(series)"),
       ("refCount", JSONValue.num 2)]) TargetFullModelField = none ∧
    lookupKey (fixGraphiteReferencedSubQueries
      [("target", JSONValue.str "#A"), ("targetFull", JSONValue.str "sum(series)"),
       ("refCount", JSONValue.num 2)]) "refCount" = some (JSONValue.num 2) := by
  have h := claim_C4_graphite_target_promotion
    [("target", JSONValue.str "#A"), ("targetFull", JSONValue.str "sum(series)"),
     ("refCount", JSONValue.num 2)]
    (JSONValue.str "#A") (JSONValue.str "sum(series)") rfl rfl
  exact ⟨h.1, h.2.1, by
    rw [h.2.2 "refCount" (by decide) (by decide)]
    rfl⟩

/-! ## Query-sequence lemmas -/

theorem migrateQuery_ok_fields (q q2 : AlertQuery) (h : migrateQuery q = Except.ok q2) :
    q2.refId = q.refId ∧ q2.datasourceUID = q.datasourceUID := by
  unfold migrateQuery at h
  by_cases hds : q.datasourceUID = expressionDatasourceUID
  · rw [if_pos hds] at h
    injection h with h1
    subst h1
    exact ⟨rfl, rfl⟩
  · rw [if_neg hds] at h
    cases hm : unmarshalMap q.model with
    | error e =>
      rw [hm] at h
      cases h
    | ok mopt =>
      rw [hm] at h
      injection h with h1
      subst h1
      exact ⟨rfl, rfl⟩

theorem migrateAlertRuleQueries_ok_length (qs res : List AlertQuery)
    (h : migrateAlertRuleQueries qs = Except.ok res) : res.length = qs.length := by
  induction qs generalizing res with
  | nil =>
    unfold migrateAlertRuleQueries at h
    injection h with h1
    subst h1
    rfl
  | cons d rest ih =>
    unfold migrateAlertRuleQueries at h
    cases hd : migrateQuery d with
    | error e =>
      rw [hd] at h
      cases h
    | ok d2 =>
      rw [hd] at h
      cases hrest : migrateAlertRuleQueries rest with
      | error e =>
        rw [hrest] at h
        cases h
      | ok rest2 =>
        rw [hrest] at h
        injection h with h1
        subst h1
        simp [ih rest2 hrest]

theorem migrateAlertRuleQueries_ok_get (qs res : List AlertQuery)
    (h : migrateAlertRuleQueries qs = Except.ok res) :
    ∀ i : Nat, ∀ h1 : i < qs.length, ∀ h2 : i < res.length,
      migrateQuery (qs.get ⟨i, h1⟩) = Except.ok (res.get ⟨i, h2⟩) := by
  induction qs generalizing res with
  | nil =>
    intro i h1 h2
    exact absurd h1 (by simp)
  | cons d rest ih =>
    unfold migrateAlertRuleQueries at h
    cases hd : migrateQuery d with
    | error e =>
      rw [hd] at h
      cases h
    | ok d2 =>
      rw [hd] at h
      cases hrest : migrateAlertRuleQueries rest with
      | error e =>
        rw [hrest] at h
        cases h
      | ok rest2 =>
        rw [hrest] at h
        injection h with h1
        subst h1
        intro i h1 h2
        cases i with
        | zero => exact hd
        | succ n =>
          exact ih rest2 hrest n (Nat.lt_of_succ_lt_succ h1) (Nat.lt_of_succ_lt_succ h2)

theorem migrateAlertRuleQueries_error_iff (qs : List AlertQuery) :
    (∃ e, migrateAlertRuleQueries qs = Except.error e) ↔
      ∃ q ∈ qs, ∃ e, migrateQuery q = Except.error e := by
  induction qs with
  | nil => simp [migrateAlertRuleQueries]
  | cons d rest ih =>
    constructor
    · rintro ⟨e, he⟩
      unfold migrateAlertRuleQueries at he
      cases hd : migrateQuery d with
      | error e2 => exact ⟨d, by simp, e2, hd⟩
      | ok d2 =>
        rw [hd] at he
        cases hrest : migrateAlertRuleQueries rest with
        | error e3 =>
          obtain ⟨q, hq, he2⟩ := ih.1 ⟨e3, hrest⟩
          exact ⟨q, by simp [hq], he2⟩
        | ok rest2 =>
          rw [hrest] at he
          cases he
    · rintro ⟨q, hq, e, he⟩
      rcases List.mem_cons.1 hq with rfl | hmem
      · refine ⟨e, ?_⟩
        unfold migrateAlertRuleQueries
        rw [he]
      · obtain ⟨e2, he2⟩ := ih.2 ⟨q, hmem, e, he⟩
        cases hd : migrateQuery d with
        | error e3 =>
          refine ⟨e3, ?_⟩
          unfold migrateAlertRuleQueries
          rw [hd]
        | ok d2 =>
          refine ⟨e2, ?_⟩
          unfold migrateAlertRuleQueries
          rw [hd, he2]

theorem migrateQuery_error_iff (q : AlertQuery) :
    (∃ e, migrateQuery q = Except.error e) ↔
      (q.datasourceUID ≠ expressionDatasourceUID ∧
       (∀ f, q.model ≠ JSONValue.obj f) ∧ q.model ≠ JSONValue.null) := by
  unfold migrateQuery
  by_cases hds : q.datasourceUID = expressionDatasourceUID
  · simp [hds]
  · rw [if_neg hds]
    constructor
    · rintro ⟨e, he⟩
      cases hm : unmarshalMap q.model with
      | error e2 =>
        refine ⟨hds, ?_, ?_⟩
        · intro f hf
          rw [hf] at hm
          simp [unmarshalMap] at hm
        · intro hf
          rw [hf] at hm
          simp [unmarshalMap] at hm
      | ok mopt =>
        rw [hm] at he
        cases he
    · rintro ⟨-, hobj, hnull⟩
      cases hq : q.model with
      | null => exact absurd hq hnull
      | obj f => exact absurd hq (hobj f)
      | bool b => exact ⟨"json: cannot unmarshal value into map", rfl⟩
      | num n => exact ⟨"json: cannot unmarshal value into map", rfl⟩
      | str s => exact ⟨"json: cannot unmarshal value into map", rfl⟩
      | arr xs => exact ⟨"json: cannot unmarshal value into map", rfl⟩

theorem migrateQuery_preserves (q : AlertQuery) (f : JSONObj)
    (hds : q.datasourceUID ≠ expressionDatasourceUID)
    (hm : q.model = JSONValue.obj f)
    (hhide : lookupKey f "hide" = none)
    (hfull : lookupKey f TargetFullModelField = none)
    (hboth : ¬(lookupKey f "instant" = some (JSONValue.bool true) ∧
               lookupKey f "range" = some (JSONValue.bool true) ∧
               isPrometheusQuery f = Except.ok true)) :
    migrateQuery q = Except.ok q := by
  obtain ⟨r, ds, mo⟩ := q
  simp only at hds hm
  subst hm
  have h1 : eraseKey f "hide" = f := eraseKey_of_lookup_none f "hide" hhide
  have h2 : fixGraphiteReferencedSubQueries f = f := by
    unfold fixGraphiteReferencedSubQueries
    rw [hfull]
  have h3 : fixPrometheusBothTypeQuery f = f := fixPrometheusBothTypeQuery_neg f hboth
  unfold migrateQuery
  rw [if_neg hds]
  simp [unmarshalMap, marshalMap, h1, h2, h3]

/-! ## Claims C2, C9 -/

/-- Counterexample to claim C2 as stated: a non-expression query whose
model is JSON null is not a valid JSON object, yet
`migrateAlertRuleQueries` does not fail on it (Go `json.Unmarshal`
decodes JSON null into a nil map without error), so the error condition
is not exactly "some non-expression model is not a JSON object". -/
theorem claim_C2_counterexample :
    ¬ (∀ qs : List AlertQuery,
        (∃ e, migrateAlertRuleQueries qs = Except.error e) ↔
        ∃ q ∈ qs, q.datasourceUID ≠ expressionDatasourceUID ∧
          ∀ f, q.model ≠ JSONValue.obj f) := by
  intro hclaim
  have h := (hclaim [⟨"A", "ds1", JSONValue.null⟩]).2
    ⟨⟨"A", "ds1", JSONValue.null⟩, by simp, by decide,
     fun f hf => JSONValue.noConfusion hf⟩
  obtain ⟨e, he⟩ := h
  rw [show migrateAlertRuleQueries [⟨"A", "ds1", JSONValue.null⟩] =
      Except.ok [⟨"A", "ds1", JSONValue.null⟩] from rfl] at he
  cases he

/-- Claim C2 (amended): for every input query sequence,
`migrateAlertRuleQueries` either returns a sequence of the same length
whose elements keep their reference id and datasource (only the model is
possibly rewritten) and in the same order, or returns an error; it
returns an error exactly when some query whose datasource is not the
expression sentinel has a model that is neither a JSON object nor JSON
null (the original claim said "not a valid JSON object", but Go
`json.Unmarshal` decodes JSON null into a nil map without error, so a
null model does not fail). -/
theorem claim_C2_queries_length_order_error (qs : List AlertQuery) :
    (∀ res, migrateAlertRuleQueries qs = Except.ok res →
      res.length = qs.length ∧
      ∀ i : Nat, ∀ h1 : i < qs.length, ∀ h2 : i < res.length,
        (res.get ⟨i, h2⟩).refId = (qs.get ⟨i, h1⟩).refId ∧
        (res.get ⟨i, h2⟩).datasourceUID = (qs.get ⟨i, h1⟩).datasourceUID) ∧
    ((∃ e, migrateAlertRuleQueries qs = Except.error e) ↔
      ∃ q ∈ qs, q.datasourceUID ≠ expressionDatasourceUID ∧
        (∀ f, q.model ≠ JSONValue.obj f) ∧ q.model ≠ JSONValue.null) := by
  constructor
  · intro res hres
    refine ⟨migrateAlertRuleQueries_ok_length qs res hres, ?_⟩
    intro i h1 h2
    exact migrateQuery_ok_fields _ _ (migrateAlertRuleQueries_ok_get qs res hres i h1 h2)
  · rw [migrateAlertRuleQueries_error_iff qs]
    constructor
    · rintro ⟨q, hq, e, he⟩
      exact ⟨q, hq, (migrateQuery_error_iff q).1 ⟨e, he⟩⟩
    · rintro ⟨q, hq, hcond⟩
      obtain ⟨e, he⟩ := (migrateQuery_error_iff q).2 hcond
      exact ⟨q, hq, e, he⟩

/-- Witness for C2: a two-query sequence (one expression node, one JSON
object model) migrates to a sequence of length two, and a sequence with
a numeric model yields an error. -/
theorem claim_C2_witness :
    (∀ res, migrateAlertRuleQueries
        [⟨"A", "__expr__", JSONValue.null⟩,
         ⟨"B", "ds1", JSONValue.obj [("x", JSONValue.num 1)]⟩] = Except.ok res →
      res.length = 2) ∧
    (∃ e, migrateAlertRuleQueries [⟨"C", "ds1", JSONValue.num 7⟩] = Except.error e) := by
  constructor
  · intro res hres
    exact (claim_C2_queries_length_order_error
      [⟨"A", "__expr__", JSONValue.null⟩,
       ⟨"B", "ds1", JSONValue.obj [("x", JSONValue.num 1)]⟩]).1 res hres |>.1
  · exact (claim_C2_queries_length_order_error [⟨"C", "ds1", JSONValue.num 7⟩]).2.2
      ⟨⟨"C", "ds1", JSONValue.num 7⟩, by simp, by decide,
       fun f hf => JSONValue.noConfusion hf, fun hf => JSONValue.noConfusion hf⟩

/-- Claim C9: a non-expression query whose model is a JSON object
already in the accepted shape (no `hide` key, no fully-expanded Graphite
target field, and not a Prometheus query with both `instant` and `range`
true) round-trips: the migrated sequence holds, at the same position, a
model that is equal to the input as a key-value mapping. -/
theorem claim_C9_roundtrip (qs res : List AlertQuery) (i : Nat) (h1 : i < qs.length)
    (f : JSONObj)
    (hok : migrateAlertRuleQueries qs = Except.ok res)
    (hds : (qs.get ⟨i, h1⟩).datasourceUID ≠ expressionDatasourceUID)
    (hm : (qs.get ⟨i, h1⟩).model = JSONValue.obj f)
    (hhide : lookupKey f "hide" = none)
    (hfull : lookupKey f TargetFullModelField = none)
    (hboth : ¬(lookupKey f "instant" = some (JSONValue.bool true) ∧
               lookupKey f "range" = some (JSONValue.bool true) ∧
               isPrometheusQuery f = Except.ok true)) :
    ∃ h2 : i < res.length, ∃ f2 : JSONObj,
      (res.get ⟨i, h2⟩).model = JSONValue.obj f2 ∧
      ∀ k, lookupKey f2 k = lookupKey f k := by
  have hlen := migrateAlertRuleQueries_ok_length qs res hok
  have h2 : i < res.length := by omega
  have hget := migrateAlertRuleQueries_ok_get qs res hok i h1 h2
  have hpres := migrateQuery_preserves (qs.get ⟨i, h1⟩) f hds hm hhide hfull hboth
  rw [hpres] at hget
  injection hget with h3
  refine ⟨h2, f, ?_, fun k => rfl⟩
  rw [← h3]
  exact hm

/-- Witness for C9: a concrete single-mode Prometheus query with no
`hide` key and no expanded target field passes through unchanged. -/
theorem claim_C9_witness :
    ∃ h2 : 0 < List.length
      [AlertQuery.mk "A" "ds1"
        (JSONValue.obj [("expr", JSONValue.str "up"), ("instant", JSONValue.bool true),
          ("datasource", JSONValue.obj [("type", JSONValue.str "prometheus")])])],
      ∃ f2 : JSONObj,
      (List.get
        [AlertQuery.mk "A" "ds1"
          (JSONValue.obj [("expr", JSONValue.str "up"), ("instant", JSONValue.bool true),
            ("datasource", JSONValue.obj [("type", JSONValue.str "prometheus")])])]
        ⟨0, h2⟩).model = JSONValue.obj f2 ∧
      ∀ k, lookupKey f2 k = lookupKey
        [("expr", JSONValue.str "up"), ("instant", JSONValue.bool true),
         ("datasource", JSONValue.obj [("type", JSONValue.str "prometheus")])] k := by
  exact claim_C9_roundtrip
    [AlertQuery.mk "A" "ds1"
      (JSONValue.obj [("expr", JSONValue.str "up"), ("instant", JSONValue.bool true),
        ("datasource", JSONValue.obj [("type", JSONValue.str "prometheus")])])]
    [AlertQuery.mk "A" "ds1"
      (JSONValue.obj [("expr", JSONValue.str "up"), ("instant", JSONValue.bool true),
        ("datasource", JSONValue.obj [("type", JSONValue.str "prometheus")])])]
    0 (by decide)
    [("expr", JSONValue.str "up"), ("instant", JSONValue.bool true),
     ("datasource", JSONValue.obj [("type", JSONValue.str "prometheus")])]
    rfl (by decide) rfl rfl rfl
    (by
      intro hc
      have hx := hc.2.1
      simp [lookupKey] at hx)

/-! ## Group-name lemmas and claim C6 -/

theorem truncate_length (s : String) (l : Int) (hl : 0 ≤ l) :
    (truncate s l).length = min l.toNat s.length := by
  unfold truncate
  split_ifs with hc
  · show (s.data.take l.toNat).length = _
    rw [List.length_take]
    rfl
  · push_neg at hc
    have h2 : s.length ≤ l.toNat := by omega
    rw [min_eq_right h2]

/-- Claim C6: for every interval whose humanized suffix fits within the
maximum group-name length (true of every interval the migration can
produce) and every dashboard title, `groupName` returns the possibly
truncated title followed by the intact suffix `" - <duration>"`; only
the title absorbs truncation, the total length never exceeds the
maximum, and when the title is long enough to require truncation the
total length equals the maximum. -/
theorem claim_C6_group_name (interval : Int) (title : String)
    (h : (" - " ++ durationString interval).length ≤ AlertRuleMaxRuleGroupNameLength) :
    groupName interval title =
      truncate title ((AlertRuleMaxRuleGroupNameLength : Int) -
        (" - " ++ durationString interval).length) ++
        (" - " ++ durationString interval) ∧
    (groupName interval title).length ≤ AlertRuleMaxRuleGroupNameLength ∧
    (AlertRuleMaxRuleGroupNameLength ≤
        title.length + (" - " ++ durationString interval).length →
      (groupName interval title).length = AlertRuleMaxRuleGroupNameLength) := by
  have hL : 0 ≤ (AlertRuleMaxRuleGroupNameLength : Int) -
      ((" - " ++ durationString interval).length : Int) := by
    omega
  have hg : groupName interval title =
      truncate title ((AlertRuleMaxRuleGroupNameLength : Int) -
        (" - " ++ durationString interval).length) ++
        (" - " ++ durationString interval) := rfl
  have hlen : (groupName interval title).length =
      min ((AlertRuleMaxRuleGroupNameLength : Int) -
        ((" - " ++ durationString interval).length : Int)).toNat title.length +
        (" - " ++ durationString interval).length := by
    rw [hg, String.length_append, truncate_length title _ hL]
  refine ⟨hg, ?_, ?_⟩
  · rw [hlen]
    have h1 := min_le_left ((AlertRuleMaxRuleGroupNameLength : Int) -
      ((" - " ++ durationString interval).length : Int)).toNat title.length
    omega
  · intro hreq
    rw [hlen]
    have h2 : ((AlertRuleMaxRuleGroupNameLength : Int) -
        ((" - " ++ durationString interval).length : Int)).toNat ≤ title.length := by
      omega
    rw [min_eq_left h2]
    omega

set_option maxRecDepth 4000 in
/-- Witness for C6 at interval 60 (suffix `" - 1m"`) and a title of 200
characters, long enough to require truncation. -/
theorem claim_C6_witness :
    (" - " ++ durationString 60).length ≤ AlertRuleMaxRuleGroupNameLength ∧
    (groupName 60 (String.mk (List.replicate 200 'a'))).length =
      AlertRuleMaxRuleGroupNameLength := by
  refine ⟨by decide, ?_⟩
  exact (claim_C6_group_name 60 (String.mk (List.replicate 200 'a'))
    (by decide)).2.2 (by decide)

/-! ## Claims C7, C8 -/

/-- Claim C8: the annotation mapping built for a migrated rule contains
exactly the four fixed keys — dashboard id, panel id (stringified),
legacy alert id (stringified) and the rendered message — for every
input, never omitting a key even when its value is empty. -/
theorem claim_C8_annotation_mapping (alert : LegacyAlert) (dashboardUID : String)
    (channels : List Channel) (tags : List (String × String))
    (migrateTmpl : String → String) :
    lookupKey (addLabelsAndAnnotations alert dashboardUID channels tags migrateTmpl).2
      annDashboardUID = some dashboardUID ∧
    lookupKey (addLabelsAndAnnotations alert dashboardUID channels tags migrateTmpl).2
      annPanelID = some (toString alert.panelID) ∧
    lookupKey (addLabelsAndAnnotations alert dashboardUID channels tags migrateTmpl).2
      annAlertID = some (toString alert.id) ∧
    lookupKey (addLabelsAndAnnotations alert dashboardUID channels tags migrateTmpl).2
      annMessage = some (migrateTmpl alert.message) ∧
    ∀ k, k ≠ annDashboardUID → k ≠ annPanelID → k ≠ annAlertID → k ≠ annMessage →
      lookupKey (addLabelsAndAnnotations alert dashboardUID channels tags migrateTmpl).2
        k = none := by
  have hanns : (addLabelsAndAnnotations alert dashboardUID channels tags migrateTmpl).2 =
      [(annDashboardUID, dashboardUID), (annPanelID, toString alert.panelID),
       (annAlertID, toString alert.id), (annMessage, migrateTmpl alert.message)] := rfl
  rw [hanns]
  refine ⟨rfl, rfl, rfl, rfl, ?_⟩
  intro k h1 h2 h3 h4
  simp [lookupKey, Ne.symm h1, Ne.symm h2, Ne.symm h3, Ne.symm h4]

/-- Witness for C8: with an empty message and identity template pass the
message annotation is present with an empty value, and an unrelated key
is absent. -/
theorem claim_C8_witness :
    lookupKey (addLabelsAndAnnotations
      (LegacyAlert.mk 5 1 2 "alert name" "" "ok" 60 300 JSONValue.null)
      "dash1" [] [] id).2 annMessage = some "" ∧
    lookupKey (addLabelsAndAnnotations
      (LegacyAlert.mk 5 1 2 "alert name" "" "ok" 60 300 JSONValue.null)
      "dash1" [] [] id).2 "severity" = none := by
  have h := claim_C8_annotation_mapping
    (LegacyAlert.mk 5 1 2 "alert name" "" "ok" 60 300 JSONValue.null) "dash1" [] [] id
  exact ⟨h.2.2.2.1,
    h.2.2.2.2 "severity" (by decide) (by decide) (by decide) (by decide)⟩

/-- Claim C7: whenever `migrateAlert` succeeds, an error-silence request
is produced exactly when the parsed legacy execution-error option is
`"keep_state"`, and a no-data-silence request exactly when the parsed
no-data option is `"keep_state"`; every request is scoped to the
generated rule identifier, and at most one request of each kind (zero,
one or two in total) is produced. -/
theorem claim_C7_silence_requests (deps : MigrateDeps) (alert : LegacyAlert)
    (info : DashboardUpgradeInfo) (ar : AlertRule) (sil : List SilenceRequest)
    (ps : DashAlertSettings)
    (hok : migrateAlert deps alert info = Except.ok (ar, sil))
    (hps : unmarshalDashAlertSettings alert.settings = Except.ok ps) :
    ((∃ r ∈ sil, r.kind = SilenceKind.error) ↔
      ps.executionErrorState = ExecutionErrorKeepState) ∧
    ((∃ r ∈ sil, r.kind = SilenceKind.noData) ↔
      ps.noDataState = NoDataKeepState) ∧
    (∀ r ∈ sil, r.ruleUID = ar.uid) ∧
    (sil.filter (fun r => r.kind == SilenceKind.error)).length ≤ 1 ∧
    (sil.filter (fun r => r.kind == SilenceKind.noData)).length ≤ 1 := by
  unfold migrateAlert at hok
  rw [hps] at hok
  cases hc : deps.transConditions with
  | error e =>
    simp only [hc] at hok
    cases hok
  | ok cond =>
    simp only [hc] at hok
    cases hq : migrateAlertRuleQueries cond.data with
    | error e =>
      simp only [hq] at hok
      cases hok
    | ok data =>
      simp only [hq] at hok
      cases hd : deps.deduplicate alert.name with
      | error e =>
        simp only [hd] at hok
        cases hok
      | ok name =>
        simp only [hd] at hok
        injection hok with h
        injection h with ha hs
        subst ha
        subst hs
        by_cases hP : ps.executionErrorState = ExecutionErrorKeepState <;>
          by_cases hQ : ps.noDataState = NoDataKeepState <;>
            simp [hP, hQ]

set_option maxRecDepth 4000 in
/-- Witness for C7: a concrete alert with both options `"keep_state"`
produces exactly one error-silence and one no-data-silence request, both
scoped to the generated rule identifier. -/
theorem claim_C7_witness :
    (∃ r ∈ [SilenceRequest.mk SilenceKind.error "uid1",
            SilenceRequest.mk SilenceKind.noData "uid1"],
      r.kind = SilenceKind.error) ∧
    (∀ r ∈ [SilenceRequest.mk SilenceKind.error "uid1",
            SilenceRequest.mk SilenceKind.noData "uid1"],
      r.ruleUID = "uid1") := by
  have h := claim_C7_silence_requests
    (MigrateDeps.mk (Except.ok (Condition.mk "A" [])) [] [] id
      (fun n => Except.ok n) "uid1")
    (LegacyAlert.mk 5 1 2 "name1" "msg" "ok" 60 300
      (JSONValue.obj [("noDataState", JSONValue.str "keep_state"),
        ("executionErrorState", JSONValue.str "keep_state")]))
    (DashboardUpgradeInfo.mk "dash1" "My Dash" "folder1")
    (AlertRule.mk 1 "name1" "uid1" "A" [] (ruleAdjustInterval 60) 1 "folder1" "dash1" 2
      (groupName (ruleAdjustInterval 60) "My Dash") 300
      [(annDashboardUID, "dash1"), (annPanelID, "2"), (annAlertID, "5"),
       (annMessage, "msg")]
      [(MigratedUseLegacyChannelsLabel, "true"), ("__alert_rule_uid__", "uid1")]
      1 false NoDataState.NoData ExecutionErrorState.ErrorErrState)
    [SilenceRequest.mk SilenceKind.error "uid1",
     SilenceRequest.mk SilenceKind.noData "uid1"]
    (DashAlertSettings.mk "keep_state" "keep_state")
    rfl rfl
  exact ⟨h.1.mpr rfl, h.2.2.1⟩
